import Mathlib

/-!
Verification of the WSGI GraphQL request handler of `ariadne`
(`src/ariadne/wsgi.py`), together with a spec-level model of the
subscription session protocol whose implementation (`ariadne/asgi.py`)
is not part of the sources, only its tests.

The embedding is shallow: JSON values parsed from a request body are an
inductive type `Json`; the Python `dict.get` of a parsed body is `Json.get`
returning `Json.null` when the key is absent (Python returns `None` both
for an absent key and an explicit JSON `null`); exceptions raised by the
handler become an `Except` with a `Failure` error type; the black-box
collaborators (`json.loads`, `graphql_sync`, `format_errors` and the
injected error formatter) are parameters of the model.
-/

/-- A JSON value as produced by `json.loads`; numbers modelled as integers
(the claims under verification never depend on fractional numbers). -/
inductive Json where
  | null : Json
  | bool : Bool → Json
  | num : Int → Json
  | str : String → Json
  | arr : List Json → Json
  | obj : List (String × Json) → Json
deriving Repr

/-- Python truthiness of a parsed JSON value: `None`, `False`, `0`, the
empty string, the empty list and the empty dict are falsy. -/
def Json.truthy : Json → Bool
  | .null => false
  | .bool b => b
  | .num n => n != 0
  | .str s => !s.isEmpty
  | .arr xs => !xs.isEmpty
  | .obj fs => !fs.isEmpty

/-- `isinstance(x, str)` on a parsed JSON value. -/
def Json.isStr : Json → Bool
  | .str _ => true
  | _ => false

/-- `isinstance(x, dict)` on a parsed JSON value. -/
def Json.isObj : Json → Bool
  | .obj _ => true
  | _ => false

/-- `x is None` on a parsed JSON value. -/
def Json.isNull : Json → Bool
  | .null => true
  | _ => false

/-- `data.get(key)` on a parsed JSON object: `None` (here `Json.null`) when
the key is absent or the value is not an object. -/
def Json.get : Json → String → Json
  | .obj fs, key => match fs.find? (fun f => f.fst == key) with
    | some f => f.snd
    | none => Json.null
  | _, _ => Json.null

mutual

/-- Python `repr` of a parsed JSON value, as used by `"%s" % value` for
non-string values (string escaping inside `repr` is not modelled; no claim
depends on it). -/
def pyRepr : Json → String
  | .null => "None"
  | .bool true => "True"
  | .bool false => "False"
  | .num n => toString n
  | .str s => "\x27" ++ s ++ "\x27"
  | .arr xs => "[" ++ pyReprList xs ++ "]"
  | .obj fs => "\x7b" ++ pyReprFields fs ++ "\x7d"

/-- Comma-separated `repr`s of list elements. -/
def pyReprList : List Json → String
  | [] => ""
  | [x] => pyRepr x
  | x :: xs => pyRepr x ++ ", " ++ pyReprList xs

/-- Comma-separated `repr`s of dict entries. -/
def pyReprFields : List (String × Json) → String
  | [] => ""
  | [f] => "\x27" ++ f.fst ++ "\x27: " ++ pyRepr f.snd
  | f :: fs => "\x27" ++ f.fst ++ "\x27: " ++ pyRepr f.snd ++ ", " ++ pyReprFields fs

end

/-- Python `str` of a parsed JSON value (`"%s" %` interpolation). -/
def pyStr : Json → String
  | .str s => s
  | j => pyRepr j

/-- An exception escaping `handle_request`: either a `GraphQLError`
(carrying a message) or an `HttpError` subclass (carrying a status code
and an optional message). -/
inductive Failure where
  | graphQLError : String → Failure
  | httpError : Nat → Option String → Failure
deriving Repr, DecidableEq

/-- `HttpBadRequestError(message)`. Modelled from the spec: `exceptions.py`
is not among the sources; per spec section 4.4 and 7 every such failure
surfaces as HTTP 400. -/
def httpBadRequestError (message : String) : Failure :=
  Failure.httpError 400 (some message)

/-- `HttpMethodNotAllowedError()`. Modelled from the spec: `exceptions.py`
is not among the sources; per spec sections 4.4 and 6 any verb other than
GET and POST yields HTTP 405, with no message attached. -/
def httpMethodNotAllowedError : Failure :=
  Failure.httpError 405 none

/-- `GraphQL.validate_query_body`: rejects a query value that is Python-falsy
or not a string, with the exact message of the source. -/
def validate_query_body (query : Json) : Except Failure Unit :=
  if !query.truthy || !query.isStr then
    Except.error (Failure.graphQLError "The query must be a string.")
  else Except.ok ()

/-- `GraphQL.validate_variables`: rejects a variables value that is neither
`None` nor a dict. -/
def validate_variables (vars : Json) : Except Failure Unit :=
  if !vars.isNull && !vars.isObj then
    Except.error (Failure.graphQLError "Query variables must be a null or an object.")
  else Except.ok ()

/-- The operation-name error message of the source, with the value
interpolated by the percent-s format into the quoted position. -/
def operationNameMessage (operationName : Json) : String :=
  "\"" ++ pyStr operationName ++ "\" is not a valid operation name."

/-- `GraphQL.validate_operation_name`: rejects an operation name that is
neither `None` nor a string. -/
def validate_operation_name (operationName : Json) : Except Failure Unit :=
  if !operationName.isNull && !operationName.isStr then
    Except.error (Failure.graphQLError (operationNameMessage operationName))
  else Except.ok ()

/-- `GraphQL.validate_query`: the three field checks in source order,
short-circuiting at the first raised error. -/
def validate_query (data : Json) : Except Failure Unit := do
  validate_query_body (data.get "query")
  validate_variables (data.get "variables")
  validate_operation_name (data.get "operationName")

/-- Decimal digits to a natural number, `none` unless all characters are
digits and there is at least one. -/
def parseDigits : List Char → Option Nat
  | [] => none
  | cs =>
    if cs.all Char.isDigit then
      some (cs.foldl (fun acc c => 10 * acc + (c.toNat - 48)) 0)
    else none

/-- Python `int(s)` on a string: surrounding whitespace stripped, an
optional sign, then decimal digits; anything else raises `ValueError`
(`none` here). -/
def pyInt (s : String) : Option Int :=
  match ((s.toList.dropWhile Char.isWhitespace).reverse.dropWhile Char.isWhitespace).reverse with
  | [] => none
  | c :: cs =>
    if c = '-' then (parseDigits cs).map (fun n => -(n : Int))
    else if c = '+' then (parseDigits cs).map (fun n => (n : Int))
    else (parseDigits (c :: cs)).map (fun n => (n : Int))

/-- The WSGI environ fields the handler reads. `content_type` and
`content_length` are `none` when the header is absent; `wsgi_input` is
`none` when the `wsgi.input` key is absent or falsy (a present `StringIO`
object is always truthy, even when empty), and otherwise holds the full
readable body as a character sequence. -/
structure Environ where
  request_method : String
  path_info : String
  content_type : Option String
  content_length : Option String
  wsgi_input : Option (List Char)
deriving Repr, DecidableEq

/-- Value fixed by the test fixture `graphql_response_headers` in
`src/tests/wsgi/conftest.py` (`constants.py` is not among the sources). -/
def CONTENT_TYPE_JSON : String := "application/json; charset=UTF-8"

/-- Value fixed by the test fixture `error_response_headers` in
`src/tests/wsgi/conftest.py`. -/
def CONTENT_TYPE_TEXT_PLAIN : String := "text/plain; charset=UTF-8"

/-- Modelled from the spec: `constants.py` is not among the sources; the
spec (section 4.4) fixes only the `text/html` media type of the GET
response. -/
def CONTENT_TYPE_TEXT_HTML : String := "text/html; charset=UTF-8"

/-- Value fixed by the test fixture `graphql_query_request_factory` in
`src/tests/wsgi/conftest.py`, which sends `application/json` as the
accepted content type. -/
def DATA_TYPE_JSON : String := "application/json"

/-- Modelled from the spec: `constants.py` is not among the sources; the
spec assigns status 200 to successful GET/POST responses. Statuses are
modelled by their numeric code. -/
def HTTP_STATUS_200_OK : Nat := 200

/-- Modelled from the spec: `constants.py` is not among the sources; the
spec assigns status 400 to every pre-dispatch failure. -/
def HTTP_STATUS_400_BAD_REQUEST : Nat := 400

/-- Modelled from the spec: `constants.py` is not among the sources; the
spec describes the GET response body only as the interactive-explorer
(playground) HTML page, so its text is left abstract here. -/
def PLAYGROUND_HTML : String := "<!DOCTYPE html> GraphQL Playground"

/-- The reason line of an HTTP status, used when an `HttpError` carries no
message (`str(error.status)` on a status constant). Modelled from the
spec: `constants.py` is not among the sources. -/
def statusText (status : Nat) : String :=
  if status == 405 then "405 Method Not Allowed"
  else if status == 400 then "400 Bad Request"
  else if status == 200 then "200 OK"
  else toString status

/-- `graphql.execution.ExecutionResult` as the handler consumes it: the
`data` member and the `errors` member, the latter a list of opaque error
values (`[]` standing for both `None` and an empty list — the handler only
ever tests truthiness). -/
structure ExecutionResult where
  data : Json
  errors : List Json
deriving Repr

/-- A WSGI response: the status passed to `start_response`, the single
`Content-Type` header, and the body (the JSON bodies kept as structured
values rather than serialized bytes). -/
inductive ResponseBody where
  | text : String → ResponseBody
  | json : Json → ResponseBody
deriving Repr

structure Response where
  status : Nat
  content_type : String
  body : ResponseBody
deriving Repr

/-- The `GraphQL` WSGI application together with its black-box
collaborators: `graphql_sync` (already applied to `self.schema`, consuming
the payload fields `query`, `variables`, `operationName`; the root and
context values never influence the modelled result), `format_errors` from
`format_errors.py`, and `json.loads`. `EF` is the type of the injected
error formatter. -/
structure Server (EF : Type) where
  debug : Bool
  error_formatter : EF
  graphql_sync : Json → Json → Json → ExecutionResult
  format_errors : ExecutionResult → EF → Bool → Json
  loads : List Char → Option Json

/-- `GraphQL.get_request_content_length`: `int(environ.get("CONTENT_LENGTH", 0))`,
raising 400 when conversion fails or the value is below 1. -/
def get_request_content_length (env : Environ) : Except Failure Int :=
  match (match env.content_length with
         | none => some (0 : Int)
         | some s => pyInt s) with
  | none => Except.error (httpBadRequestError "Content length header is missing or incorrect")
  | some content_length =>
    if content_length < 1 then
      Except.error (httpBadRequestError "Content length header is missing or incorrect")
    else Except.ok content_length

/-- `GraphQL.get_request_body`: raises 400 when `wsgi.input` is absent or
when reading `content_length` bytes yields nothing. -/
def get_request_body (env : Environ) (content_length : Int) : Except Failure (List Char) :=
  match env.wsgi_input with
  | none => Except.error (httpBadRequestError "Request body cannot be empty")
  | some input =>
    let request_body := input.take content_length.toNat
    if request_body.isEmpty then
      Except.error (httpBadRequestError "Request body cannot be empty")
    else Except.ok request_body

/-- `GraphQL.parse_request_body`: `json.loads`, with a parse failure raised
as 400. -/
def parse_request_body {EF : Type} (s : Server EF) (request_body : List Char) : Except Failure Json :=
  match s.loads request_body with
  | some data => Except.ok data
  | none => Except.error (httpBadRequestError "Request body is not a valid JSON")

/-- `GraphQL.get_request_data`: content-type check, content-length check,
body read, JSON parse, and the JSON-object check, in source order. -/
def get_request_data {EF : Type} (s : Server EF) (env : Environ) : Except Failure Json :=
  if env.content_type != some DATA_TYPE_JSON then
    Except.error (httpBadRequestError ("Posted content must be of type " ++ DATA_TYPE_JSON))
  else do
    let content_length ← get_request_content_length env
    let request_body ← get_request_body env content_length
    let data ← parse_request_body s request_body
    if !data.isObj then
      Except.error (Failure.graphQLError "Valid request body should be a JSON object")
    else return data

/-- `GraphQL.execute_query`: `graphql_sync` on the payload fields. -/
def execute_query {EF : Type} (s : Server EF) (data : Json) : ExecutionResult :=
  s.graphql_sync (data.get "query") (data.get "variables") (data.get "operationName")

/-- `GraphQL.return_response_from_result`: a 200 JSON response whose body
always holds `data` and holds `errors` exactly when the result carries a
truthy error list, formatted by `format_errors` with the injected formatter
and the debug flag. -/
def return_response_from_result {EF : Type} (s : Server EF) (result : ExecutionResult) : Response :=
  let response :=
    if !result.errors.isEmpty then
      Json.obj [("data", result.data),
                ("errors", s.format_errors result s.error_formatter s.debug)]
    else Json.obj [("data", result.data)]
  { status := HTTP_STATUS_200_OK, content_type := CONTENT_TYPE_JSON,
    body := ResponseBody.json response }

/-- `GraphQL.handle_get`: the playground page. -/
def handle_get : Response :=
  { status := HTTP_STATUS_200_OK, content_type := CONTENT_TYPE_TEXT_HTML,
    body := ResponseBody.text PLAYGROUND_HTML }

/-- `GraphQL.handle_post`: request data, validation, execution, response. -/
def handle_post {EF : Type} (s : Server EF) (env : Environ) : Except Failure Response := do
  let data ← get_request_data s env
  validate_query data
  let result := execute_query s data
  return return_response_from_result s result

/-- `GraphQL.handle_request`: method dispatch. -/
def handle_request {EF : Type} (s : Server EF) (env : Environ) : Except Failure Response :=
  if env.request_method == "GET" then Except.ok handle_get
  else if env.request_method == "POST" then handle_post s env
  else Except.error httpMethodNotAllowedError

/-- `GraphQL.handle_graphql_error`: a 400 JSON response carrying
`{"errors": [{"message": message}]}`. -/
def handle_graphql_error (message : String) : Response :=
  { status := HTTP_STATUS_400_BAD_REQUEST, content_type := CONTENT_TYPE_JSON,
    body := ResponseBody.json
      (Json.obj [("errors", Json.arr [Json.obj [("message", Json.str message)]])]) }

/-- `GraphQL.handle_http_error`: a plain-text response at the error status,
with the body `error.message or error.status`. -/
def handle_http_error (status : Nat) (message : Option String) : Response :=
  { status := status, content_type := CONTENT_TYPE_TEXT_PLAIN,
    body := ResponseBody.text
      (match message with
       | some m => if m.isEmpty then statusText status else m
       | none => statusText status) }

/-- The two `except` clauses of `GraphQL.__call__`: a `GraphQLError` goes
to `handle_graphql_error`, an `HttpError` to `handle_http_error`. -/
def errorResponse : Failure → Response
  | Failure.graphQLError message => handle_graphql_error message
  | Failure.httpError st message => handle_http_error st message

/-- `GraphQL.__call__`: `handle_request` with `GraphQLError` and `HttpError`
turned into their error responses. -/
def callServer {EF : Type} (s : Server EF) (env : Environ) : Response :=
  match handle_request s env with
  | Except.ok r => r
  | Except.error f => errorResponse f

/-- The `app` argument of `GraphQLMiddleware.__init__`: a Python value that
is either a callable WSGI application or some non-callable value. -/
inductive WsgiApp where
  | callable : (Environ → Response) → WsgiApp
  | notCallable : WsgiApp

/-- A constructed `GraphQLMiddleware`: the wrapped application and the
configured path (the source default is the string slash graphql slash). -/
structure GraphQLMiddleware where
  app : Environ → Response
  path : String

/-- The exception classes `GraphQLMiddleware.__init__` can raise. -/
inductive InitError where
  | typeError : String → InitError
  | valueError : String → InitError
deriving Repr, DecidableEq

/-- `GraphQLMiddleware.__init__`: `TypeError` for a non-callable app, then
`ValueError` for an empty path, then `ValueError` for the root path, in
source order (the attribute assignments preceding the checks have no
observable effect once the constructor raises). -/
def middleware_init (app : WsgiApp) (path : String) : Except InitError GraphQLMiddleware :=
  match app with
  | WsgiApp.notCallable =>
    Except.error (InitError.typeError "app must be a callable WSGI application")
  | WsgiApp.callable f =>
    if path.isEmpty then
      Except.error (InitError.valueError "path can\x27t be empty")
    else if path == "/" then
      Except.error (InitError.valueError
        "WSGI middleware can\x27t use root path together with application callable")
    else Except.ok { app := f, path := path }

/-- `GraphQLMiddleware.__call__`: requests whose `PATH_INFO` does not start
with the configured path go to the wrapped application with the same
environ; all others go to the GraphQL server (`str.startswith` modelled on
the character sequences). -/
def middleware_call {EF : Type} (mw : GraphQLMiddleware) (graphql_server : Server EF)
    (env : Environ) : Response :=
  if !(mw.path.toList.isPrefixOf env.path_info.toList) then mw.app env
  else callServer graphql_server env

/-- The message of a raised failure, as interpolated into a protocol
`error` message by the session. -/
def Failure.messageText : Failure → String
  | Failure.graphQLError m => m
  | Failure.httpError _ m => m.getD ""

/-- Modelled from the spec: the Subscription Session states of spec
section 4.5 (`ariadne/asgi.py` is not among the sources, only its tests). -/
inductive SessionState where
  | awaitingInit : SessionState
  | ready : SessionState
  | terminated : SessionState
deriving Repr, DecidableEq

/-- Modelled from the spec: inbound session protocol messages
(spec section 6). -/
inductive InMessage where
  | connection_init : InMessage
  | start : String → Json → InMessage
  | stop : String → InMessage
  | connection_terminate : InMessage

/-- Modelled from the spec: outbound session protocol messages
(spec section 6). -/
inductive OutMessage where
  | connection_ack : OutMessage
  | connection_error : String → OutMessage
  | data : String → ExecutionResult → OutMessage
  | complete : String → OutMessage
  | error : String → String → OutMessage
deriving Repr

/-- Modelled from the spec: the Execution Dispatcher outcome for the
subscription path (spec section 4.2) — either a single request-level
result or a stream of results; streams are modelled as the finite list of
results the source produces before natural exhaustion. -/
inductive DispatchOutcome where
  | single : ExecutionResult → DispatchOutcome
  | stream : List ExecutionResult → DispatchOutcome

/-- Modelled from the spec: a Subscription Session (spec section 3) — its
state and the registry of active operation ids. -/
structure Session where
  state : SessionState
  operations : List String
deriving Repr, DecidableEq

/-- Modelled from the spec: one inbound-message transition of the
Subscription Session state machine (spec section 4.5), for a session with
no user-supplied `onConnect` hook (so `connection_init` always succeeds).
A finite stream is consumed to exhaustion, emitting one `data` per
produced result and then `complete`; the operation handle registered for
it is deregistered at exhaustion, so the registry is unchanged across the
step. Of the implementer-selectable policies for a message invalid in the
current state, this model emits `connection_error` and leaves the state
unchanged. -/
def session_step (dispatch : Json → DispatchOutcome) (s : Session) :
    InMessage → Session × List OutMessage
  | InMessage.connection_init =>
    ({ s with state := SessionState.ready }, [OutMessage.connection_ack])
  | InMessage.start id payload =>
    match s.state with
    | SessionState.ready =>
      match validate_query payload with
      | Except.error f => (s, [OutMessage.error id f.messageText])
      | Except.ok _ =>
        match dispatch payload with
        | DispatchOutcome.single r =>
          (s, [OutMessage.data id r, OutMessage.complete id])
        | DispatchOutcome.stream rs =>
          (s, rs.map (OutMessage.data id) ++ [OutMessage.complete id])
    | _ => (s, [OutMessage.connection_error "protocol violation"])
  | InMessage.stop id =>
    match s.state with
    | SessionState.ready =>
      if s.operations.contains id then
        ({ s with operations := s.operations.erase id }, [OutMessage.complete id])
      else (s, [])
    | _ => (s, [OutMessage.connection_error "protocol violation"])
  | InMessage.connection_terminate =>
    ({ state := SessionState.terminated, operations := [] }, [])

/-- Modelled from the spec: a session processing its inbound messages one
at a time in arrival order (spec section 5), accumulating the outbound
messages. -/
def session_run (dispatch : Json → DispatchOutcome) (msgs : List InMessage) :
    Session × List OutMessage :=
  msgs.foldl
    (fun acc m =>
      let step := session_step dispatch acc.fst m
      (step.fst, acc.snd ++ step.snd))
    ({ state := SessionState.awaitingInit, operations := [] }, [])

/-- The GraphQL-shaped 400 JSON response for a raised `GraphQLError`. -/
def graphqlErrorResponse (msg : String) : Response :=
  { status := 400, content_type := CONTENT_TYPE_JSON,
    body := ResponseBody.json (Json.obj
      [("errors", Json.arr [Json.obj [("message", Json.str msg)]])]) }

/-- A concrete server instance over the trivial formatter type, used to
instantiate the universally quantified handler theorems. -/
def serverW : Server Unit :=
  { debug := false
    error_formatter := ()
    graphql_sync := fun _ _ _ => { data := Json.null, errors := [] }
    format_errors := fun _ _ _ => Json.null
    loads := fun _ => none }

/-- A server whose JSON parser returns the empty object for every body. -/
def serverEmptyObj : Server Unit :=
  { serverW with loads := fun _ => some (Json.obj []) }

/-- A server whose JSON parser returns a minimal valid payload for every
body. -/
def serverValidPayload : Server Unit :=
  { serverW with loads := fun _ => some (Json.obj [("query", Json.str "x")]) }

/-- A well-formed POST environ with a two-character body. -/
def envPostW : Environ :=
  { request_method := "POST", path_info := "/graphql/",
    content_type := some "application/json", content_length := some "2",
    wsgi_input := some ['a', 'b'] }

/-- `validate_query` checks the payload fields in source order,
short-circuiting on the first failure, with the first check rejecting a
query value that is Python-falsy or not a string. -/
theorem validate_query_order (data : Json) :
    validate_query data =
      (if !(data.get "query").truthy || !(data.get "query").isStr then
        Except.error (Failure.graphQLError "The query must be a string.")
      else if !(data.get "variables").isNull && !(data.get "variables").isObj then
        Except.error (Failure.graphQLError "Query variables must be a null or an object.")
      else if !(data.get "operationName").isNull && !(data.get "operationName").isStr then
        Except.error (Failure.graphQLError (operationNameMessage (data.get "operationName")))
      else Except.ok ()) := by
  unfold validate_query validate_query_body validate_variables validate_operation_name
  cases h1 : (!(data.get "query").truthy || !(data.get "query").isStr)
  · cases h2 : (!(data.get "variables").isNull && !(data.get "variables").isObj)
    · cases h3 : (!(data.get "operationName").isNull && !(data.get "operationName").isStr)
      · rfl
      · rfl
    · rfl
  · rfl

/-- C1 counterexample: the payload whose `query` field is the empty string.
The empty string is present and is a string, so the claim requires the
query check to pass, yet `validate_query` fails with exactly
`"The query must be a string."` (the source also rejects Python-falsy
query values). -/
theorem C1_counterexample :
    ((Json.obj [("query", Json.str "")]).get "query").isStr = true ∧
    ((Json.obj [("query", Json.str "")]).get "query").isNull = false ∧
    validate_query (Json.obj [("query", Json.str "")]) =
      Except.error (Failure.graphQLError "The query must be a string.") :=
  ⟨rfl, rfl, rfl⟩

/-- C1 (amended): the Validator checks the payload in the fixed order
query, variables, operationName, short-circuiting on the first failure: it
fails with exactly `"The query must be a string."` precisely when the
query value is absent, not a string, or Python-falsy (the empty string);
otherwise with exactly `"Query variables must be a null or an object."`
precisely when variables is present (non-null) and not a mapping;
otherwise with exactly the interpolated operation-name message precisely
when operationName is present (non-null) and not a string; for every
other payload it succeeds. -/
theorem C1_amended_validate_query_characterization (data : Json) :
    validate_query data =
      (if !(data.get "query").truthy || !(data.get "query").isStr then
        Except.error (Failure.graphQLError "The query must be a string.")
      else if !(data.get "variables").isNull && !(data.get "variables").isObj then
        Except.error (Failure.graphQLError "Query variables must be a null or an object.")
      else if !(data.get "operationName").isNull && !(data.get "operationName").isStr then
        Except.error (Failure.graphQLError (operationNameMessage (data.get "operationName")))
      else Except.ok ()) :=
  validate_query_order data

/-- C6: on a valid payload — `query` a non-empty string, `variables`
absent/null or a mapping, `operationName` absent/null or a string — the
Validator succeeds; being modelled (faithfully to the source, which only
reads the payload) as a pure function, it leaves the payload unchanged. -/
theorem C6_validator_accepts_valid (data : Json) (q : String)
    (hq : data.get "query" = Json.str q) (hq2 : q ≠ "")
    (hv : (data.get "variables").isNull = true ∨ (data.get "variables").isObj = true)
    (ho : (data.get "operationName").isNull = true ∨ (data.get "operationName").isStr = true) :
    validate_query data = Except.ok () := by
  rw [validate_query_order]
  have hqe : q.isEmpty = false :=
    Bool.eq_false_iff.mpr (fun h => hq2 ((String.isEmpty_iff q).mp h))
  have hqt : (data.get "query").truthy = true := by
    rw [hq]
    simp [Json.truthy, hqe]
  have hqs : (data.get "query").isStr = true := by rw [hq]; rfl
  rw [hqt, hqs]
  simp only [Bool.not_true, Bool.or_self, Bool.false_eq_true, if_false]
  rcases hv with hv | hv <;> rcases ho with ho | ho <;>
    simp [hv, ho]


/-- Witness for C6: a concrete valid payload is accepted. -/
theorem C6_validator_accepts_valid_witness :
    validate_query (Json.obj [("query", Json.str "\x7b hello \x7d")]) = Except.ok () :=
  C6_validator_accepts_valid _ "\x7b hello \x7d" rfl (by decide) (Or.inl rfl) (Or.inl rfl)

/-- C7: every GET request — whatever its headers and body — is answered
with status 200, Content-Type text/html, and the playground HTML page as
the body. -/
theorem C7_get_playground {EF : Type} (s : Server EF) (env : Environ)
    (h : env.request_method = "GET") :
    callServer s env =
      { status := 200, content_type := CONTENT_TYPE_TEXT_HTML,
        body := ResponseBody.text PLAYGROUND_HTML } := by
  simp [callServer, handle_request, handle_get, h, HTTP_STATUS_200_OK]

/-- Witness for C7: a concrete GET request with no headers and no body. -/
theorem C7_get_playground_witness :
    callServer serverW
      { request_method := "GET", path_info := "/", content_type := none,
        content_length := none, wsgi_input := none } =
      { status := 200, content_type := CONTENT_TYPE_TEXT_HTML,
        body := ResponseBody.text PLAYGROUND_HTML } :=
  C7_get_playground serverW _ rfl

/-- C8: every request whose method is neither GET nor POST is answered
with status 405 and a text/plain body. -/
theorem C8_method_not_allowed {EF : Type} (s : Server EF) (env : Environ)
    (h1 : env.request_method ≠ "GET") (h2 : env.request_method ≠ "POST") :
    callServer s env =
      { status := 405, content_type := CONTENT_TYPE_TEXT_PLAIN,
        body := ResponseBody.text (statusText 405) } := by
  have b1 : (env.request_method == "GET") = false := beq_eq_false_iff_ne.mpr h1
  have b2 : (env.request_method == "POST") = false := beq_eq_false_iff_ne.mpr h2
  simp [callServer, handle_request, b1, b2, httpMethodNotAllowedError, errorResponse,
    handle_http_error]

/-- Witness for C8: a concrete PUT request. -/
theorem C8_method_not_allowed_witness :
    callServer serverW
      { request_method := "PUT", path_info := "/", content_type := none,
        content_length := none, wsgi_input := none } =
      { status := 405, content_type := CONTENT_TYPE_TEXT_PLAIN,
        body := ResponseBody.text (statusText 405) } :=
  C8_method_not_allowed serverW _ (by decide) (by decide)


/-- C2: a POST request whose parsed JSON body fails validation is answered
with status 400 and a GraphQL-shaped JSON error body, and the response is
the same for every executor — `graphql_sync` is never consulted. -/
theorem C2_invalid_payload_400 {EF : Type} (s : Server EF) (env : Environ)
    (data : Json) (msg : String)
    (hm : env.request_method = "POST")
    (hd : get_request_data s env = Except.ok data)
    (hv : validate_query data = Except.error (Failure.graphQLError msg)) :
    (∀ exec2 : Json → Json → Json → ExecutionResult,
      callServer { s with graphql_sync := exec2 } env = graphqlErrorResponse msg) ∧
    callServer s env = graphqlErrorResponse msg := by
  have key : ∀ exec2 : Json → Json → Json → ExecutionResult,
      callServer { s with graphql_sync := exec2 } env = graphqlErrorResponse msg := by
    intro exec2
    have hd2 : get_request_data { s with graphql_sync := exec2 } env = Except.ok data := hd
    simp [callServer, handle_request, hm, handle_post, hd2, hv, Bind.bind, Except.bind,
      errorResponse, handle_graphql_error, graphqlErrorResponse, HTTP_STATUS_400_BAD_REQUEST]
  exact ⟨key, key s.graphql_sync⟩

/-- Witness for C2: a parsed body with no `query` field fails validation
and yields the 400 GraphQL-shaped response. -/
theorem C2_invalid_payload_400_witness :
    callServer serverEmptyObj envPostW =
      graphqlErrorResponse "The query must be a string." :=
  (C2_invalid_payload_400 serverEmptyObj envPostW (Json.obj [])
    "The query must be a string." rfl rfl rfl).2

/-- C3: a POST request that passes parsing and validation is answered with
status 200 and a JSON object that always carries `data` (the execution
result data) and carries `errors` exactly when the execution result has a
truthy error list, produced by `format_errors` with the injected error
formatter and the debug flag. -/
theorem C3_valid_post_200 {EF : Type} (s : Server EF) (env : Environ) (data : Json)
    (hm : env.request_method = "POST")
    (hd : get_request_data s env = Except.ok data)
    (hv : validate_query data = Except.ok ()) :
    callServer s env =
      { status := 200, content_type := CONTENT_TYPE_JSON,
        body := ResponseBody.json (Json.obj
          (("data", (execute_query s data).data) ::
           (if (execute_query s data).errors.isEmpty then []
            else [("errors",
              s.format_errors (execute_query s data) s.error_formatter s.debug)]))) } := by
  simp only [callServer, handle_request, hm, handle_post, hd, hv, Bind.bind, Except.bind,
    return_response_from_result, HTTP_STATUS_200_OK, pure, Except.pure]
  cases he : (execute_query s data).errors.isEmpty <;> simp [he]

/-- Witness for C3: a concrete valid POST is answered 200 with a `data` key
and, the trivial executor reporting no errors, no `errors` key. -/
theorem C3_valid_post_200_witness :
    callServer serverValidPayload envPostW =
      { status := 200, content_type := CONTENT_TYPE_JSON,
        body := ResponseBody.json (Json.obj
          (("data", (execute_query serverValidPayload (Json.obj [("query", Json.str "x")])).data) ::
           (if (execute_query serverValidPayload (Json.obj [("query", Json.str "x")])).errors.isEmpty then []
            else [("errors",
              serverValidPayload.format_errors
                (execute_query serverValidPayload (Json.obj [("query", Json.str "x")]))
                serverValidPayload.error_formatter serverValidPayload.debug)]))) } :=
  C3_valid_post_200 serverValidPayload envPostW (Json.obj [("query", Json.str "x")]) rfl rfl rfl


/-- `get_request_content_length` either returns a length of at least one or
fails with the content-length error. -/
theorem get_request_content_length_cases (env : Environ) :
    (∃ n, get_request_content_length env = Except.ok n ∧ 1 ≤ n) ∨
    get_request_content_length env =
      Except.error (httpBadRequestError "Content length header is missing or incorrect") := by
  unfold get_request_content_length
  cases h : (match env.content_length with
             | none => some (0 : Int)
             | some s => pyInt s) with
  | none => exact Or.inr rfl
  | some n =>
    by_cases hn : n < 1
    · exact Or.inr (by simp [hn])
    · exact Or.inl ⟨n, by simp [hn], by omega⟩

/-- A POST request whose `get_request_data` raises is answered by the
matching error handler, whatever the executor is. -/
theorem callServer_post_data_error {EF : Type} (s : Server EF) (env : Environ) (f : Failure)
    (hm : env.request_method = "POST")
    (hgrd : get_request_data s env = Except.error f) :
    ∀ exec2 : Json → Json → Json → ExecutionResult,
      callServer { s with graphql_sync := exec2 } env = errorResponse f := by
  intro exec2
  have hgrd2 : get_request_data { s with graphql_sync := exec2 } env = Except.error f := hgrd
  simp [callServer, handle_request, hm, handle_post, hgrd2, Bind.bind, Except.bind]

/-- Under any of the malformed-request conditions of C4, `get_request_data`
raises an `HttpBadRequestError`. -/
theorem get_request_data_malformed {EF : Type} (s : Server EF) (env : Environ)
    (hbad : env.content_type ≠ some DATA_TYPE_JSON ∨ env.content_length = none ∨
      (∃ cl, env.content_length = some cl ∧ pyInt cl = none) ∨
      (∃ cl n, env.content_length = some cl ∧ pyInt cl = some n ∧ n < 1) ∨
      env.wsgi_input = none ∨ env.wsgi_input = some []) :
    ∃ m, get_request_data s env = Except.error (Failure.httpError 400 (some m)) := by
  by_cases hct : env.content_type = some DATA_TYPE_JSON
  · have hct2 : (env.content_type != some DATA_TYPE_JSON) = false := by
      simp [hct]
    rcases hbad with h | h | h | h | h | h
    · exact absurd hct h
    · refine ⟨"Content length header is missing or incorrect", ?_⟩
      have hcl : get_request_content_length env =
          Except.error (httpBadRequestError "Content length header is missing or incorrect") := by
        unfold get_request_content_length
        rw [h]
        rfl
      simp [get_request_data, hct2, hcl, Bind.bind, Except.bind, httpBadRequestError]
    · obtain ⟨cl, h1, h2⟩ := h
      refine ⟨"Content length header is missing or incorrect", ?_⟩
      have hcl : get_request_content_length env =
          Except.error (httpBadRequestError "Content length header is missing or incorrect") := by
        unfold get_request_content_length
        rw [h1]
        simp [h2]
      simp [get_request_data, hct2, hcl, Bind.bind, Except.bind, httpBadRequestError]
    · obtain ⟨cl, n, h1, h2, h3⟩ := h
      refine ⟨"Content length header is missing or incorrect", ?_⟩
      have hcl : get_request_content_length env =
          Except.error (httpBadRequestError "Content length header is missing or incorrect") := by
        unfold get_request_content_length
        rw [h1]
        simp [h2, h3]
      simp [get_request_data, hct2, hcl, Bind.bind, Except.bind, httpBadRequestError]
    · rcases get_request_content_length_cases env with ⟨n, hok, hn⟩ | herr
      · refine ⟨"Request body cannot be empty", ?_⟩
        have hb : get_request_body env n =
            Except.error (httpBadRequestError "Request body cannot be empty") := by
          unfold get_request_body
          rw [h]
        simp [get_request_data, hct2, hok, hb, Bind.bind, Except.bind, httpBadRequestError]
      · refine ⟨"Content length header is missing or incorrect", ?_⟩
        simp [get_request_data, hct2, herr, Bind.bind, Except.bind, httpBadRequestError]
    · rcases get_request_content_length_cases env with ⟨n, hok, hn⟩ | herr
      · refine ⟨"Request body cannot be empty", ?_⟩
        have hb : get_request_body env n =
            Except.error (httpBadRequestError "Request body cannot be empty") := by
          unfold get_request_body
          rw [h]
          simp
        simp [get_request_data, hct2, hok, hb, Bind.bind, Except.bind, httpBadRequestError]
      · refine ⟨"Content length header is missing or incorrect", ?_⟩
        simp [get_request_data, hct2, herr, Bind.bind, Except.bind, httpBadRequestError]
  · refine ⟨"Posted content must be of type " ++ DATA_TYPE_JSON, ?_⟩
    have hct2 : (env.content_type != some DATA_TYPE_JSON) = true := bne_iff_ne.mpr hct
    simp [get_request_data, hct2, httpBadRequestError]

/-- C4: a POST request whose Content-Type is not application/json, or whose
Content-Length is absent, non-numeric or below one, or whose body is empty,
is answered with status 400 and a text/plain error message, with the same
response for every executor — the query is never executed. -/
theorem C4_malformed_post_400 {EF : Type} (s : Server EF) (env : Environ)
    (hm : env.request_method = "POST")
    (hbad : env.content_type ≠ some DATA_TYPE_JSON ∨ env.content_length = none ∨
      (∃ cl, env.content_length = some cl ∧ pyInt cl = none) ∨
      (∃ cl n, env.content_length = some cl ∧ pyInt cl = some n ∧ n < 1) ∨
      env.wsgi_input = none ∨ env.wsgi_input = some []) :
    (callServer s env).status = 400 ∧
    (callServer s env).content_type = CONTENT_TYPE_TEXT_PLAIN ∧
    (∃ msg, (callServer s env).body = ResponseBody.text msg) ∧
    ∀ exec2 : Json → Json → Json → ExecutionResult,
      callServer { s with graphql_sync := exec2 } env = callServer s env := by
  obtain ⟨m, hgrd⟩ := get_request_data_malformed s env hbad
  have hcall := callServer_post_data_error s env _ hm hgrd
  have hc0 : callServer s env = errorResponse (Failure.httpError 400 (some m)) :=
    hcall s.graphql_sync
  refine ⟨?_, ?_, ?_, ?_⟩
  · rw [hc0]
    rfl
  · rw [hc0]
    rfl
  · rw [hc0]
    exact ⟨_, rfl⟩
  · intro exec2
    exact (hcall exec2).trans hc0.symm

/-- Witness for C4: a concrete POST with Content-Type text/plain. -/
theorem C4_malformed_post_400_witness :
    (callServer serverW
      { request_method := "POST", path_info := "/", content_type := some "text/plain",
        content_length := none, wsgi_input := none }).status = 400 :=
  (C4_malformed_post_400 serverW _ rfl (Or.inl (by decide))).1

/-- C5: a POST request with the correct content type and a valid content
length whose non-empty body either is not parseable as JSON or parses to a
non-object is answered with status 400 carrying the validation message —
the text/plain body `Request body is not a valid JSON` when parsing fails,
the GraphQL-shaped JSON error `Valid request body should be a JSON object`
when the parsed value is not an object — with the same response for every
executor: the query is never executed. -/
theorem C5_bad_json_400 {EF : Type} (s : Server EF) (env : Environ) (n : Int) (body : List Char)
    (hm : env.request_method = "POST")
    (hct : env.content_type = some DATA_TYPE_JSON)
    (hcl : get_request_content_length env = Except.ok n)
    (hbody : env.wsgi_input = some body)
    (hne : (body.take n.toNat).isEmpty = false)
    (hparse : s.loads (body.take n.toNat) = none ∨
      ∃ j, s.loads (body.take n.toNat) = some j ∧ j.isObj = false) :
    (callServer s env).status = 400 ∧
    (s.loads (body.take n.toNat) = none →
      callServer s env =
        { status := 400, content_type := CONTENT_TYPE_TEXT_PLAIN,
          body := ResponseBody.text "Request body is not a valid JSON" }) ∧
    ((∃ j, s.loads (body.take n.toNat) = some j ∧ j.isObj = false) →
      callServer s env =
        graphqlErrorResponse "Valid request body should be a JSON object") ∧
    ∀ exec2 : Json → Json → Json → ExecutionResult,
      callServer { s with graphql_sync := exec2 } env = callServer s env := by
  have hct2 : (env.content_type != some DATA_TYPE_JSON) = false := by simp [hct]
  have hb : get_request_body env n = Except.ok (body.take n.toNat) := by
    unfold get_request_body
    rw [hbody]
    simp [hne]
  have keyN : s.loads (body.take n.toNat) = none →
      get_request_data s env =
        Except.error (httpBadRequestError "Request body is not a valid JSON") := by
    intro hp
    have hpb : parse_request_body s (body.take n.toNat) =
        Except.error (httpBadRequestError "Request body is not a valid JSON") := by
      unfold parse_request_body
      rw [hp]
    simp [get_request_data, hct2, hcl, hb, hpb, Bind.bind, Except.bind]
  have keyO : ∀ j, s.loads (body.take n.toNat) = some j → j.isObj = false →
      get_request_data s env =
        Except.error (Failure.graphQLError "Valid request body should be a JSON object") := by
    intro j hp hobj
    have hpb : parse_request_body s (body.take n.toNat) = Except.ok j := by
      unfold parse_request_body
      rw [hp]
    simp [get_request_data, hct2, hcl, hb, hpb, hobj, Bind.bind, Except.bind]
  have respN : s.loads (body.take n.toNat) = none →
      callServer s env =
        { status := 400, content_type := CONTENT_TYPE_TEXT_PLAIN,
          body := ResponseBody.text "Request body is not a valid JSON" } := by
    intro hp
    have hcN : callServer s env =
        errorResponse (httpBadRequestError "Request body is not a valid JSON") :=
      callServer_post_data_error s env _ hm (keyN hp) s.graphql_sync
    rw [hcN]
    rfl
  have respO : ∀ j, s.loads (body.take n.toNat) = some j → j.isObj = false →
      callServer s env =
        graphqlErrorResponse "Valid request body should be a JSON object" := by
    intro j hp hobj
    have hcO : callServer s env =
        errorResponse (Failure.graphQLError "Valid request body should be a JSON object") :=
      callServer_post_data_error s env _ hm (keyO j hp hobj) s.graphql_sync
    rw [hcO]
    rfl
  refine ⟨?_, respN, fun h => ?_, ?_⟩
  · rcases hparse with hp | ⟨j, hp, hobj⟩
    · rw [respN hp]
    · rw [respO j hp hobj]
      rfl
  · obtain ⟨j, hp, hobj⟩ := h
    exact respO j hp hobj
  · intro exec2
    rcases hparse with hp | ⟨j, hp, hobj⟩
    · have hcall := callServer_post_data_error s env _ hm (keyN hp)
      have hc0 : callServer s env =
          errorResponse (httpBadRequestError "Request body is not a valid JSON") :=
        hcall s.graphql_sync
      exact (hcall exec2).trans hc0.symm
    · have hcall := callServer_post_data_error s env _ hm (keyO j hp hobj)
      have hc0 : callServer s env =
          errorResponse (Failure.graphQLError "Valid request body should be a JSON object") :=
        hcall s.graphql_sync
      exact (hcall exec2).trans hc0.symm

/-- Witness for C5: a concrete POST whose body does not parse as JSON is
answered by the 400 text/plain validation message. -/
theorem C5_bad_json_400_witness :
    (callServer serverW envPostW).status = 400 ∧
    callServer serverW envPostW =
      { status := 400, content_type := CONTENT_TYPE_TEXT_PLAIN,
        body := ResponseBody.text "Request body is not a valid JSON" } :=
  ⟨(C5_bad_json_400 serverW envPostW 2 ['a', 'b'] rfl rfl rfl rfl rfl (Or.inl rfl)).1,
   (C5_bad_json_400 serverW envPostW 2 ['a', 'b'] rfl rfl rfl rfl rfl (Or.inl rfl)).2.1 rfl⟩


/-- C9: in a session, `connection_init` followed by `start` carrying a
valid payload, against a one-shot source whose stream produces exactly one
result, yields precisely the outbound sequence
`[connection_ack, data id r, complete id]` — no other message at all, so
none for that id. -/
theorem C9_ping_session (dispatch : Json → DispatchOutcome) (id : String)
    (payload : Json) (r : ExecutionResult)
    (hvalid : validate_query payload = Except.ok ())
    (hdisp : dispatch payload = DispatchOutcome.stream [r]) :
    (session_run dispatch [InMessage.connection_init, InMessage.start id payload]).snd =
      [OutMessage.connection_ack, OutMessage.data id r, OutMessage.complete id] := by
  simp [session_run, session_step, hvalid, hdisp]

/-- Witness for C9: the ping subscription of `src/tests/asgi/test_websockets.py`,
with a one-shot source producing `{ping: pong}`. -/
theorem C9_ping_session_witness :
    (session_run
      (fun _ => DispatchOutcome.stream
        [{ data := Json.obj [("ping", Json.str "pong")], errors := [] }])
      [InMessage.connection_init,
       InMessage.start "test1"
         (Json.obj [("query", Json.str "subscription \x7b ping \x7d")])]).snd =
      [OutMessage.connection_ack,
       OutMessage.data "test1" { data := Json.obj [("ping", Json.str "pong")], errors := [] },
       OutMessage.complete "test1"] :=
  C9_ping_session _ "test1" _ _ rfl rfl

/-- C10: the middleware forwards every request whose `PATH_INFO` does not
start with the configured path to the wrapped application, on the same
environ, and routes every other request to the GraphQL server; the
constructor raises `TypeError` for a non-callable app and `ValueError` for
an empty path and for the root path. -/
theorem C10_middleware {EF : Type} (graphql_server : Server EF)
    (mw : GraphQLMiddleware) (env : Environ) (f : Environ → Response) (path : String) :
    (mw.path.toList.isPrefixOf env.path_info.toList = false →
      middleware_call mw graphql_server env = mw.app env) ∧
    (mw.path.toList.isPrefixOf env.path_info.toList = true →
      middleware_call mw graphql_server env = callServer graphql_server env) ∧
    middleware_init WsgiApp.notCallable path =
      Except.error (InitError.typeError "app must be a callable WSGI application") ∧
    middleware_init (WsgiApp.callable f) "" =
      Except.error (InitError.valueError "path can\x27t be empty") ∧
    middleware_init (WsgiApp.callable f) "/" =
      Except.error (InitError.valueError
        "WSGI middleware can\x27t use root path together with application callable") := by
  refine ⟨fun h => ?_, fun h => ?_, rfl, rfl, rfl⟩
  · simp only [middleware_call, h]
    rfl
  · simp only [middleware_call, h]
    rfl

/-- Witness for C10: a middleware at the default path forwards a request
for another path to the wrapped application and routes a request under the
configured path to the GraphQL server. -/
theorem C10_middleware_witness :
    (middleware_call { app := fun _ => handle_get, path := "/graphql/" } serverW
        { request_method := "GET", path_info := "/other", content_type := none,
          content_length := none, wsgi_input := none } =
      (fun _ => handle_get)
        ({ request_method := "GET", path_info := "/other", content_type := none,
           content_length := none, wsgi_input := none } : Environ)) ∧
    (middleware_call { app := fun _ => handle_get, path := "/graphql/" } serverW
        { request_method := "GET", path_info := "/graphql/", content_type := none,
          content_length := none, wsgi_input := none } =
      callServer serverW
        { request_method := "GET", path_info := "/graphql/", content_type := none,
          content_length := none, wsgi_input := none }) :=
  ⟨(C10_middleware serverW _ _ (fun _ => handle_get) "p").1 rfl,
   (C10_middleware serverW _ _ (fun _ => handle_get) "p").2.1 rfl⟩

